import Mathlib

/-!
# Verification of the WhatsApp session controller and message ingestion pipeline

A shallow embedding, in Lean 4, of the core logic of the WhatsApp message
capture system: the message ingestion pipeline (`MessageProcessor`), the
attachment classifier (`AttachmentService`), and the session resilience
controller (`PersistentWhatsAppClient` / `WhatsAppClient`): reconnection
scheduling, force-fresh-session decisions, stale-connection escalation,
shutdown timer handling, roster (group) initialization retry, and the
own-account message filter.

JavaScript conventions used by the source are modelled explicitly:
strings with `""` standing for a falsy (empty/absent) string, `Option`
for nullable values, and millisecond timestamps as natural numbers.  The
ambient wall clock (`Date.now()` / `new Date().getTime()`) is passed as an
explicit `now` parameter.
-/

namespace WhatsAppCore

/-! ## String helpers (JS string semantics) -/

/-- JS `a || b` on strings: `""` is falsy. -/
def jsOr (a b : String) : String := if a = "" then b else a

/-- JS `a || b` where `a` is a possibly-absent string field. -/
def jsOrOpt (a : Option String) (b : Option String) : Option String :=
  match a with
  | none => b
  | some s => if s = "" then b else some s

/-- Boolean prefix test on character lists (JS `String.startsWith` core). -/
def charsStart : List Char → List Char → Bool
  | [], _ => true
  | _ :: _, [] => false
  | a :: as, b :: bs => a = b && charsStart as bs

/-- Boolean infix test on character lists (JS `String.includes` core). -/
def charsWithin (pat : List Char) : List Char → Bool
  | [] => charsStart pat []
  | h :: t => charsStart pat (h :: t) || charsWithin pat t

/-- JS `s.startsWith p`. -/
def strStartsWith (s p : String) : Bool := charsStart p.data s.data

/-- JS `s.includes p`. -/
def strContains (s p : String) : Bool := charsWithin p.data s.data

/-- JS whitespace class (`\s`) restricted to the characters relevant here. -/
def isWs (c : Char) : Bool := c = ' ' || c = '\t' || c = '\n' || c = '\r'

/-- JS `s.trim()`: strip whitespace from both ends. -/
def jsTrimList (l : List Char) : List Char :=
  ((l.dropWhile isWs).reverse.dropWhile isWs).reverse

/-- JS `s.trim()` on strings. -/
def jsTrim (s : String) : String := ⟨jsTrimList s.data⟩

/-- JS `s.replace(/`+"`"+`/g, '')`: remove every backtick. -/
def stripBackticks (s : String) : String := ⟨s.data.filter (fun c => c ≠ '`')⟩

/-- Remove the first occurrence of `pat` (JS `s.replace(pat, '')` with a
string pattern, which replaces only the first occurrence). -/
def replaceFirstList (pat : List Char) : List Char → List Char
  | [] => []
  | h :: t =>
    if charsStart pat (h :: t) then (h :: t).drop pat.length
    else h :: replaceFirstList pat t

/-- JS `s.replace(pat, '')` for a string pattern. -/
def replaceFirst (s pat : String) : String := ⟨replaceFirstList pat.data s.data⟩

/-! ## URL scanning (the regex `/(https?:\/\/[^\s]+)/g`) -/

/-- Try to match `https?:\/\/[^\s]+` at the head of the character list.
Returns the full match, which requires at least one non-whitespace
character after the scheme separator. -/
def urlMatchAt (l : List Char) : Option (List Char) :=
  if charsStart "https://".data l then
    match (l.drop 8).takeWhile (fun c => !isWs c) with
    | [] => none
    | xs => some ("https://".data ++ xs)
  else if charsStart "http://".data l then
    match (l.drop 7).takeWhile (fun c => !isWs c) with
    | [] => none
    | xs => some ("http://".data ++ xs)
  else none

/-- Global regex scan: collect successive matches, resuming after each
match end, advancing one character where there is no match.  Fuel-driven
so that the definition is structurally recursive; each step consumes at
least one character, so `l.length` fuel is always enough. -/
def scanUrlsAux : Nat → List Char → List (List Char)
  | 0, _ => []
  | _ + 1, [] => []
  | fuel + 1, h :: t =>
    match urlMatchAt (h :: t) with
    | some m => m :: scanUrlsAux fuel ((h :: t).drop m.length)
    | none => scanUrlsAux fuel t

/-- All matches of `/(https?:\/\/[^\s]+)/g` in `s`, in order. -/
def scanUrls (s : String) : List String :=
  (scanUrlsAux s.data.length s.data).map fun l => ⟨l⟩

/-! ## Data model of raw inbound events

A raw `whatsapp-web.js` message, with the results of its asynchronous
accessors (`getChat`, `getContact`, `getQuotedMessage`, `downloadMedia`)
inlined as fields, since the pipeline consumes them exactly once.
Timestamps are in seconds, `0` standing for a falsy/absent timestamp
exactly as in the JS truthiness test `rawMessage.timestamp ? ... : ...`. -/

structure RawChat where
  idSerialized : String
  name : String
  isGroup : Bool
  deriving DecidableEq

structure RawContact where
  idSerialized : String
  pushname : String
  name : String
  deriving DecidableEq

/-- Result of `downloadMedia()`: base64 payload presence and MIME type. -/
structure MediaData where
  hasData : Bool
  mimetype : String
  filename : String
  deriving DecidableEq

/-- A quoted (replied-to) message as seen by `extractReplyData`. -/
structure QuotedMsg where
  idSerialized : String
  body : String
  msgType : String
  hasMedia : Bool
  media : Option MediaData
  timestamp : Nat
  deriving DecidableEq

/-- A raw inbound message event. -/
structure RawMessage where
  idSerialized : String
  body : String
  msgType : String
  timestamp : Nat
  hasMedia : Bool
  media : Option MediaData
  chat : RawChat
  contact : RawContact
  quoted : Option QuotedMsg
  author : String
  msgFrom : String
  isStatus : Bool
  deriving DecidableEq

/-- Intermediate record built up by `processMessage` (the mutable
`messageData` object of the source). -/
structure MessageData where
  messageId : String
  groupId : String
  groupName : String
  senderId : String
  senderName : String
  messageText : String
  timestamp : Nat
  isGroup : Bool
  replyToMessageId : String := ""
  replyText : String := ""
  replyAttachmentType : Option String := none
  replyAttachmentPath : Option String := none
  attachmentTypeField : Option String := none
  linkMetadata : Option (List String) := none
  imageAttachmentPath : Option String := none
  documentAttachmentPath : Option String := none
  videoAttachmentPath : Option String := none
  audioAttachmentPath : Option String := none
  batchAttachmentPath : Option String := none
  deriving DecidableEq

/-- The pipeline's normalized output record (`formatMessageData` result). -/
structure FormattedMessage where
  groupId : String
  groupName : String
  senderName : String
  messageText : String
  timestamp : Nat
  imageAttachmentPath : Option String
  documentAttachmentPath : Option String
  videoAttachmentPath : Option String
  audioAttachmentPath : Option String
  linkMetadata : Option (List String)
  batchAttachmentPath : Option String
  replyToMessageId : Option String
  replyText : Option String
  replyAttachmentType : Option String
  replyAttachmentPath : Option String
  attachmentType : Option String
  deriving DecidableEq

/-! ## MessageProcessor embedding -/

/-- The JS timestamp idiom `ts ? ts * 1000 : new Date().getTime()`. -/
def jsMillis (ts : Nat) (now : Nat) : Nat := if ts ≠ 0 then ts * 1000 else now

/-- The deterministic locator `FOLDER/{t}_attachment_{t}.{ext}` synthesized
for replied-to media from the quoted message's own timestamp. -/
def synthMediaPath (folder ext : String) (t : Nat) : String :=
  folder ++ "/" ++ toString t ++ "_attachment_" ++ toString t ++ "." ++ ext

/-- Model of `MessageProcessor.extractMessageData`: base extraction from the raw
message, its chat and its contact. -/
def extractMessageData (m : RawMessage) (now : Nat) : MessageData :=
  { messageId := m.idSerialized
    groupId := m.chat.idSerialized
    groupName := m.chat.name
    senderId := m.contact.idSerialized
    senderName := jsOr (jsOr m.contact.pushname m.contact.name) "Unknown"
    messageText := m.body
    timestamp := jsMillis m.timestamp now
    isGroup := m.chat.isGroup }

/-- Result of `MessageProcessor.extractReplyData`. -/
structure ReplyData where
  messageId : String
  messageText : String
  attachmentType : Option String
  attachmentPath : Option String
  replyText : String
  deriving DecidableEq

/-- Model of `MessageProcessor.extractReplyData`: classify the quoted message's
media by MIME prefix, synthesize a deterministic locator, detect link
replies, and copy the locator into the quoted-text field for a video
with empty text. -/
def extractReplyData (q : QuotedMsg) (now : Nat) : ReplyData :=
  -- media / link classification
  let tp : Option String × Option String :=
    if q.hasMedia then
      match q.media with
      | some md =>
        if md.mimetype ≠ "" then
          if strStartsWith md.mimetype "image/" then
            (some "image", some (synthMediaPath "IMAGES" "jpg" (jsMillis q.timestamp now)))
          else if strStartsWith md.mimetype "video/" then
            (some "video", some (synthMediaPath "VIDEOS" "mp4" (jsMillis q.timestamp now)))
          else if strStartsWith md.mimetype "audio/" then
            (some "audio", some (synthMediaPath "AUDIO" "mp3" (jsMillis q.timestamp now)))
          else if strStartsWith md.mimetype "application/" then
            (some "document", some (synthMediaPath "DOCUMENTS" "pdf" (jsMillis q.timestamp now)))
          else (none, none)
        else (none, none)
      | none => (none, none)
    else
      match scanUrls q.body with
      | [] => (none, none)
      | u :: _ => (some "link", some u)
  let attachmentType := tp.1
  let attachmentPath := tp.2
  -- for video replies with empty text, use the path as the reply text
  let replyText := q.body
  let replyText :=
    if attachmentType = some "video" ∧ (replyText = "" ∨ jsTrim replyText = "") then
      attachmentPath.getD ""
    else replyText
  -- infer a video attachment from the message type when MIME gave nothing
  let tp2 : Option String × Option String :=
    if q.hasMedia ∧ attachmentType = none then
      if q.msgType = "video" then
        (some "video", some (synthMediaPath "VIDEOS" "mp4" (jsMillis q.timestamp now)))
      else (attachmentType, attachmentPath)
    else (attachmentType, attachmentPath)
  let attachmentType := tp2.1
  let attachmentPath := tp2.2
  -- final check: a video type always gets a path
  let attachmentPath :=
    if attachmentType = some "video" ∧ attachmentPath = none then
      some (synthMediaPath "VIDEOS" "mp4" (jsMillis q.timestamp now))
    else attachmentPath
  { messageId := q.idSerialized
    messageText := q.body
    attachmentType := attachmentType
    attachmentPath := attachmentPath
    replyText := replyText }

/-- Model of `AttachmentService.saveLinkAttachment`, restricted to the `url` field
the pipeline consumes: reject an empty URL, clean it, echo it back. -/
def saveLinkAttachmentUrl (url : String) : Option String :=
  if url = "" then none else some (jsTrim (stripBackticks url))

/-- Model of `MessageProcessor.extractAndProcessLinks`: find every URL in the text,
clean each and collect the resolved URLs; remember the first raw match for
stripping from the display text. -/
def extractAndProcessLinks (messageText : String) : Option (String × List String) :=
  if messageText = "" then none
  else
    match scanUrls messageText with
    | [] => none
    | m :: ms =>
      let links := (m :: ms).filterMap fun url =>
        let url := jsTrim (stripBackticks url)
        match saveLinkAttachmentUrl url with
        | none => none
        | some resolved => if resolved = "" then none else some resolved
      if links.isEmpty then none else some (m, links)

/-- JS truthiness of a nullable string field: present and nonempty. -/
def optTruthy (o : Option String) : Bool :=
  match o with
  | some s => s ≠ ""
  | none => false

/-- JS `x || null` on a string: the empty string becomes null. -/
def optOfStr (s : String) : Option String := if s = "" then none else some s

/-- The `mimeToExt` table of `MessageProcessor.getFileExtensionFromMimeType`. -/
def mimeToExtTable : List (String × String) :=
  [("image/jpeg", "jpg"), ("image/png", "png"), ("image/gif", "gif"),
   ("image/webp", "webp"), ("application/pdf", "pdf"),
   ("application/vnd.openxmlformats-officedocument.wordprocessingml.document", "docx"),
   ("application/vnd.openxmlformats-officedocument.spreadsheetml.sheet", "xlsx"),
   ("application/msword", "doc"), ("application/vnd.ms-excel", "xls"),
   ("video/mp4", "mp4"), ("video/quicktime", "mov"), ("video/x-msvideo", "avi"),
   ("video/webm", "webm"), ("video/ogg", "ogv"), ("video/mpeg", "mpg"),
   ("video/3gpp", "mp4"), ("video/x-matroska", "mkv")]

/-- Model of `MessageProcessor.getFileExtensionFromMimeType`. -/
def getFileExtensionFromMimeType (mimeType : String) : String :=
  let lookup := (mimeToExtTable.find? fun p => p.1 = mimeType).map Prod.snd
  if strStartsWith mimeType "video/" then
    match lookup with
    | some ext => ext
    | none => "mp4"
  else
    match lookup with
    | some ext => ext
    | none =>
      if mimeType ≠ "" then
        match mimeType.splitOn "/" with
        | [_, p] => if p ≠ "" then ((p.splitOn ";").headD "") else "bin"
        | _ => "bin"
      else "bin"

/-- Model of `AttachmentService.saveAttachment`: classify by MIME prefix, build the
collision-free relative locator `FOLDER/{now}_{fileName}`, and return the
kind together with the locator; unsupported MIME types yield nothing. -/
def saveAttachment (fileName mimeType : String) (now : Nat) : Option (String × String) :=
  let isImage := strStartsWith mimeType "image/"
  let isDocument := strStartsWith mimeType "application/"
  let isVideo := strStartsWith mimeType "video/"
  let isAudio := strStartsWith mimeType "audio/"
  if !isImage && !isDocument && !isVideo && !isAudio then none
  else
    let uniqueFileName := toString now ++ "_" ++ fileName
    if isImage then some ("image", "IMAGES/" ++ uniqueFileName)
    else if isVideo then some ("video", "VIDEOS/" ++ uniqueFileName)
    else if isAudio then some ("audio", "AUDIO/" ++ uniqueFileName)
    else some ("document", "DOCUMENTS/" ++ uniqueFileName)

/-- Per-kind locator slots returned by `MessageProcessor.processAttachment`. -/
structure AttachmentPaths where
  imageAttachmentPath : Option String := none
  documentAttachmentPath : Option String := none
  videoAttachmentPath : Option String := none
  audioAttachmentPath : Option String := none
  deriving DecidableEq

/-- Model of `MessageProcessor.processAttachment`: download the media, derive a file
name, store the attachment and dispatch the locator to its kind's slot. -/
def processAttachment (m : RawMessage) (now : Nat) : Option AttachmentPaths :=
  match m.media with
  | none => none
  | some md =>
    if !md.hasData then none
    else
      let attachmentFilename :=
        jsOr md.filename
          ("attachment_" ++ toString now ++ "." ++ getFileExtensionFromMimeType md.mimetype)
      match saveAttachment attachmentFilename md.mimetype now with
      | none => none
      | some (kind, rel) =>
        some { imageAttachmentPath := if kind = "image" then some rel else none
               documentAttachmentPath := if kind = "document" then some rel else none
               videoAttachmentPath := if kind = "video" then some rel else none
               audioAttachmentPath := if kind = "audio" then some rel else none }

/-- The four reply fields of `messageData` as computed by the reply block
of `MessageProcessor.processMessage`.  The block reads only the quoted
message and the fields it has just assigned, so it is a function of the
quoted message alone. -/
structure ReplyFields where
  replyToMessageId : String
  replyText : String
  replyAttachmentType : Option String
  replyAttachmentPath : Option String
  deriving DecidableEq

/-- The reply block of `MessageProcessor.processMessage`: copy the quoted
data into the reply fields, infer a missing reply kind from the locator,
fall back to the locator for an empty video reply text, and as a last
resort infer video/audio from the quoted message's own type. -/
def computeReplyFields (q : QuotedMsg) (now : Nat) : ReplyFields :=
  let quotedData := extractReplyData q now
  let r : ReplyFields :=
    { replyToMessageId := quotedData.messageId
      replyText := jsOr quotedData.replyText quotedData.messageText
      replyAttachmentType := quotedData.attachmentType
      replyAttachmentPath := quotedData.attachmentPath }
  -- infer type from path if missing
  let r :=
    if optTruthy r.replyAttachmentPath ∧ ¬optTruthy r.replyAttachmentType then
      if strContains (r.replyAttachmentPath.getD "") "VIDEOS/" then
        { r with replyAttachmentType := some "video" }
      else if strContains (r.replyAttachmentPath.getD "") "AUDIO/" then
        { r with replyAttachmentType := some "audio" }
      else if strContains (r.replyAttachmentPath.getD "") "IMAGES/" then
        { r with replyAttachmentType := some "image" }
      else if strContains (r.replyAttachmentPath.getD "") "DOCUMENTS/" then
        { r with replyAttachmentType := some "document" }
      else r
    else r
  -- for video replies, ensure replyText contains the path if empty
  let r :=
    if quotedData.attachmentType = some "video" ∧
        (r.replyText = "" ∨ jsTrim r.replyText = "") then
      { r with replyText := quotedData.attachmentPath.getD "" }
    else r
  -- special handling for video and audio attachments
  if q.hasMedia then
    if q.msgType = "video" ∧ ¬optTruthy r.replyAttachmentType then
      let r := { r with replyAttachmentType := some "video" }
      if ¬optTruthy r.replyAttachmentPath then
        { r with replyAttachmentPath := some (synthMediaPath "VIDEOS" "mp4" (jsMillis q.timestamp now)) }
      else r
    else if q.msgType = "audio" ∧ ¬optTruthy r.replyAttachmentType then
      let r := { r with replyAttachmentType := some "audio" }
      if ¬optTruthy r.replyAttachmentPath then
        { r with replyAttachmentPath := some (synthMediaPath "AUDIO" "mp3" (jsMillis q.timestamp now)) }
      else r
    else r
  else r

/-- Install the reply block's result into `messageData` (no quoted message
leaves the record untouched; `messageData.attachmentType` is normalized to
`null` by `messageData.attachmentType || null`). -/
def applyReply (d : MessageData) (quoted : Option QuotedMsg) (now : Nat) : MessageData :=
  match quoted with
  | none => d
  | some q =>
    let rf := computeReplyFields q now
    { d with
      replyToMessageId := rf.replyToMessageId
      replyText := rf.replyText
      replyAttachmentType := rf.replyAttachmentType
      replyAttachmentPath := rf.replyAttachmentPath
      attachmentTypeField := jsOrOpt d.attachmentTypeField none }

/-- The link block of `MessageProcessor.processMessage`: record the resolved
URLs and strip the first raw match from the display text. -/
def applyLinks (d : MessageData) : MessageData :=
  match extractAndProcessLinks d.messageText with
  | none => d
  | some (extractedLink, links) =>
    let d := { d with linkMetadata := some links }
    if extractedLink ≠ "" then
      { d with messageText := jsTrim (replaceFirst d.messageText extractedLink) }
    else d

/-- The attachment block of `MessageProcessor.processMessage`
(`isBatchAttachment` is hard-wired to `false` in the source, so only the
single-attachment path is reachable). -/
def applyAttachment (d : MessageData) (m : RawMessage) (now : Nat) : MessageData :=
  if m.hasMedia then
    match processAttachment m now with
    | none => d
    | some ap =>
      { d with imageAttachmentPath := ap.imageAttachmentPath
               documentAttachmentPath := ap.documentAttachmentPath
               videoAttachmentPath := ap.videoAttachmentPath
               audioAttachmentPath := ap.audioAttachmentPath }
  else d

/-- Model of `MessageProcessor.validateMessage`: reject only on a group message with
no group id, or a missing sender name.  The empty-message check in the
source `return true`s in both of its branches, so an otherwise-empty
message is accepted. -/
def validateMessage (d : MessageData) : Bool :=
  if (d.isGroup ∧ d.groupId = "") ∨ d.senderName = "" then false else true

/-- The unified attachment-kind priority chain of
`MessageProcessor.formatMessageData`. -/
def unifiedAttachmentType (img doc vid aud : Option String)
    (link : Option (List String)) (batch : Option String) : Option String :=
  if optTruthy img then some "image"
  else if optTruthy vid then some "video"
  else if optTruthy aud then some "audio"
  else if optTruthy doc then some "document"
  else if link.isSome then some "link"
  else if optTruthy batch then some "batch"
  else none

/-- The reply-field fixups at the head of `MessageProcessor.formatMessageData`:
copy the locator into an empty video reply text, infer the reply kind from
the locator folder, and synthesize a missing locator (from the current
time) for a typed video/audio reply. -/
def replyFixups (d : MessageData) (now : Nat) : MessageData :=
  -- for video replies, ensure replyText contains the video path
  let d :=
    if d.replyAttachmentType = some "video" ∧
        (d.replyText = "" ∨ jsTrim d.replyText = "") ∧
        optTruthy d.replyAttachmentPath then
      { d with replyText := d.replyAttachmentPath.getD "" }
    else d
  -- infer the reply kind from the locator folder
  let d :=
    if optTruthy d.replyAttachmentPath then
      if strContains (d.replyAttachmentPath.getD "") "VIDEOS/" ∧
          ¬optTruthy d.replyAttachmentType then
        { d with replyAttachmentType := some "video" }
      else if strContains (d.replyAttachmentPath.getD "") "AUDIO/" ∧
          ¬optTruthy d.replyAttachmentType then
        { d with replyAttachmentType := some "audio" }
      else d
    else d
  -- synthesize a missing locator for a typed video/audio reply
  if optTruthy d.replyAttachmentType ∧ ¬optTruthy d.replyAttachmentPath then
    if d.replyAttachmentType = some "video" then
      { d with replyAttachmentPath := some ("VIDEOS/" ++ toString now ++ "_attachment_" ++ toString now ++ ".mp4") }
    else if d.replyAttachmentType = some "audio" then
      { d with replyAttachmentPath := some ("AUDIO/" ++ toString now ++ "_attachment_" ++ toString now ++ ".mp3") }
    else d
  else d

/-- Model of `MessageProcessor.formatMessageData`: final fixups of the reply fields,
derivation of the unified attachment kind, and `x || null` normalization
of the output record. -/
def formatMessageData (d : MessageData) (now : Nat) : FormattedMessage :=
  let d := replyFixups d now
  let attachmentType := unifiedAttachmentType d.imageAttachmentPath
    d.documentAttachmentPath d.videoAttachmentPath d.audioAttachmentPath
    d.linkMetadata d.batchAttachmentPath
  { groupId := d.groupId
    groupName := d.groupName
    senderName := d.senderName
    messageText := d.messageText
    timestamp := d.timestamp
    imageAttachmentPath := if optTruthy d.imageAttachmentPath then d.imageAttachmentPath else none
    documentAttachmentPath := if optTruthy d.documentAttachmentPath then d.documentAttachmentPath else none
    videoAttachmentPath := if optTruthy d.videoAttachmentPath then d.videoAttachmentPath else none
    audioAttachmentPath := if optTruthy d.audioAttachmentPath then d.audioAttachmentPath else none
    linkMetadata := d.linkMetadata
    batchAttachmentPath := if optTruthy d.batchAttachmentPath then d.batchAttachmentPath else none
    replyToMessageId := optOfStr d.replyToMessageId
    replyText := optOfStr d.replyText
    replyAttachmentType := if optTruthy d.replyAttachmentType then d.replyAttachmentType else none
    replyAttachmentPath := if optTruthy d.replyAttachmentPath then d.replyAttachmentPath else none
    attachmentType := jsOrOpt d.attachmentTypeField attachmentType }

/-- The full extraction phase of `MessageProcessor.processMessage`: base
extraction, reply block, link block, attachment block, in source order. -/
def assembleMessageData (m : RawMessage) (now : Nat) : MessageData :=
  applyAttachment (applyLinks (applyReply (extractMessageData m now) m.quoted now)) m now

/-- Model of `MessageProcessor.processMessage`: assemble, validate, shape. -/
def processMessage (m : RawMessage) (now : Nat) : Option FormattedMessage :=
  let d := assembleMessageData m now
  if validateMessage d then some (formatMessageData d now) else none

/-! ## Reconnection scheduler (`PersistentWhatsAppClient`)

The events that touch the `reconnectAttempts` counter, with their effects
taken from the registered handlers: the `ready` and `authenticated`
handlers reset it to 0, `handleDisconnection` increments it (or, past the
maximum, leaves it for the 30-minute cooldown that resets it once), and a
passing active health check decrements it by one. -/

inductive SessionEvent where
  | ready
  | authenticated
  | disconnected
  | healthCheckPass
  | cooldownReset
  deriving DecidableEq

structure ReconnectState where
  reconnectAttempts : Nat
  deriving DecidableEq

/-- Source constant `this.maxReconnectAttempts = 20`. -/
def maxReconnectAttempts : Nat := 20

/-- Effect of each event on the reconnect-attempt counter. -/
def reconnectStep : SessionEvent → ReconnectState → ReconnectState
  | .ready, _ => ⟨0⟩
  | .authenticated, _ => ⟨0⟩
  | .disconnected, s =>
    if s.reconnectAttempts ≥ maxReconnectAttempts then s
    else ⟨s.reconnectAttempts + 1⟩
  | .healthCheckPass, s => ⟨s.reconnectAttempts - 1⟩
  | .cooldownReset, _ => ⟨0⟩

/-- Delay of `handleDisconnection`:
`Math.min(20000 * Math.pow(1.2, attempts - 1), 180000)`. -/
def reconnectDelay (attempt : Nat) : ℚ :=
  min (20000 * (6 / 5 : ℚ) ^ (attempt - 1)) 180000

/-! ## Force-fresh-session decision (`handleDisconnection`) -/

/-- The explicit logout/unpair reasons tested in `handleDisconnection`. -/
def isExplicitLogoutReason (reason : String) : Bool :=
  reason = "LOGOUT" ∨ reason = "UNPAIRED" ∨ reason = "UNPAIRED_DEVICE"

/-- The `forceNewSession` decision of `handleDisconnection`: explicit
logout/unpair, or missing session files, or more than 5 failed attempts. -/
def forceNewSessionDecision (reason : String) (hasSessionFiles : Bool)
    (reconnectAttempts : Nat) : Bool :=
  isExplicitLogoutReason reason || !hasSessionFiles || reconnectAttempts > 5

/-! ## Stale-connection handling (`handleConnectionStale`,
`performActiveHealthCheck`) -/

structure StaleState where
  staleConnectionCount : Nat
  lastStaleConnectionTime : Option Nat
  deriving DecidableEq

/-- The 5-minute rolling window of `handleConnectionStale`, in ms. -/
def staleWindowMs : Nat := 5 * 60 * 1000

/-- Window bookkeeping at the start of `handleConnectionStale`:
a stale episode within 5 minutes of the previous one increments the
counter, otherwise the counter restarts at 1. -/
def recordStaleEpisode (s : StaleState) (now : Nat) : StaleState :=
  match s.lastStaleConnectionTime with
  | none => ⟨1, some now⟩
  | some t =>
    if now - t < staleWindowMs then ⟨s.staleConnectionCount + 1, some now⟩
    else ⟨1, some now⟩

/-- The adaptive stale reconnect delay:
`Math.min(10000 * Math.pow(1.5, staleConnectionCount - 1), 60000)`. -/
def staleReconnectDelay (staleConnectionCount : Nat) : ℚ :=
  min (10000 * (3 / 2 : ℚ) ^ (staleConnectionCount - 1)) 60000

/-- Model of `performActiveHealthCheck`: it declares the connection stale only when both
probe kinds (state query, then battery query) have failed. -/
def activeProbesExhausted (stateProbeOk batteryProbeOk : Bool) : Bool :=
  !(stateProbeOk || batteryProbeOk)

/-- Model of `handleConnectionStale` forcing decision: it forces a fresh session only past 5 stale
episodes in the recent period. -/
def staleForceNewSession (staleConnectionCount : Nat) : Bool :=
  staleConnectionCount > 5

/-! ## Shutdown and timers (`shutdown`, `stopConnectionMonitoring`,
`initializeClient` lock refresh) -/

/-- Which repeating timers are currently scheduled. -/
structure TimerState where
  connectionMonitor : Bool
  groupRefreshInterval : Bool
  lockRefreshInterval : Bool
  deriving DecidableEq

/-- Model of `startConnectionMonitoring`: installs the health monitor and the
periodic group (roster) recheck. -/
def startConnectionMonitoring (t : TimerState) : TimerState :=
  { t with connectionMonitor := true, groupRefreshInterval := true }

/-- The `finally` block of `initializeClient` installs the lock refresh. -/
def setupLockRefresh (t : TimerState) : TimerState :=
  { t with lockRefreshInterval := true }

/-- Model of `stopConnectionMonitoring`: clears the health monitor and the group
recheck; by an explicit comment in the source it deliberately does NOT
clear the lock-refresh interval, which must persist until process exit. -/
def stopConnectionMonitoring (t : TimerState) : TimerState :=
  { t with connectionMonitor := false, groupRefreshInterval := false }

/-- The timer cancellation performed by `shutdown` before the adapter
destroy is attempted: exactly one call to `stopConnectionMonitoring`. -/
def shutdownCancelTimers (t : TimerState) : TimerState :=
  stopConnectionMonitoring t

/-! ## Roster initialization with retry (`WhatsAppClient.initializeGroups`) -/

/-- Model of `WhatsAppClient.initializeGroups`: fetch the group list (via
`getAllGroups`, whose failures resolve to `[]`), and retry while the
result is empty and fewer than `maxAttempts = 5` attempts were made.
`fetch` is the oracle giving the adapter's answer at each attempt; the
fuel argument makes the recursion structural and, at 5, is never
exhausted before the attempt bound. -/
def initializeGroupsAux (fetch : Nat → List String) : Nat → Nat → List String
  | 0, attempt => fetch attempt
  | fuel + 1, attempt =>
    let groups := fetch attempt
    if groups.length = 0 ∧ attempt < 5 then initializeGroupsAux fetch fuel (attempt + 1)
    else groups

/-- Entry point, first attempt numbered 1 as in the source. -/
def initializeGroups (fetch : Nat → List String) : List String :=
  initializeGroupsAux fetch 5 1

/-! ## Own-account / status filter (`isBusinessMessage`,
`handleIncomingMessage`) -/

structure IncomingMsg where
  msgFrom : String
  author : String
  isStatus : Bool
  deriving DecidableEq

/-- Constructor value: `this.businessPhoneNumber = null` until the adapter's
ready handler records `info.wid.user`. -/
def initialBusinessPhoneNumber : Option String := none

/-- Model of `isBusinessMessage`: false when the sender field or the recorded own
number is missing; otherwise own-author or status/broadcast detection. -/
def isBusinessMessage (businessPhoneNumber : Option String) (m : IncomingMsg) : Bool :=
  if m.msgFrom = "" ∨ ¬optTruthy businessPhoneNumber then false
  else
    let isFromBusiness := m.author ≠ "" ∧ strContains m.author (businessPhoneNumber.getD "")
    let isStatus := m.isStatus ∨ strContains m.msgFrom "status@broadcast"
    isFromBusiness ∨ isStatus

/-- The gate of `handleIncomingMessage`: a message is processed unless it
is a business/status message or not from a group chat. -/
def shouldProcessIncoming (businessPhoneNumber : Option String) (m : IncomingMsg) : Bool :=
  !isBusinessMessage businessPhoneNumber m && strContains m.msgFrom "@g.us"

/-! ## Concrete example events used to instantiate the theorems -/

/-- A well-formed group chat. -/
def chatG1 : RawChat := { idSerialized := "g1", name := "Group One", isGroup := true }

/-- A contact whose push name is set. -/
def contactAlice : RawContact := { idSerialized := "a1", pushname := "Alice", name := "" }

/-- A group-scoped event whose chat id is empty but whose sender name is
present. -/
def msgNoGroupId : RawMessage :=
  { idSerialized := "m1", body := "hi", msgType := "chat",
    timestamp := 5, hasMedia := false, media := none,
    chat := { idSerialized := "", name := "G", isGroup := true },
    contact := contactAlice,
    quoted := none, author := "a1", msgFrom := "g@g.us", isStatus := false }

/-- A completely empty message (no text, no media, no reply, and not even
a sender name on the contact) from a valid group. -/
def msgEmpty : RawMessage :=
  { idSerialized := "m0", body := "", msgType := "chat",
    timestamp := 5, hasMedia := false, media := none, chat := chatG1,
    contact := { idSerialized := "a1", pushname := "", name := "" },
    quoted := none, author := "a1", msgFrom := "g1@g.us", isStatus := false }

/-- A quoted video message with empty text. -/
def quotedVideo : QuotedMsg :=
  { idSerialized := "q7", body := "", msgType := "video", hasMedia := true,
    media := some { hasData := true, mimetype := "video/mp4", filename := "" },
    timestamp := 5 }

/-- A reply to `quotedVideo` from a valid group. -/
def msgReplyVideo : RawMessage :=
  { idSerialized := "m4", body := "nice clip", msgType := "chat",
    timestamp := 6, hasMedia := false, media := none, chat := chatG1,
    contact := contactAlice, quoted := some quotedVideo,
    author := "a1", msgFrom := "g1@g.us", isStatus := false }

/-- The two-link scenario event. -/
def msgLinkScenario : RawMessage :=
  { idSerialized := "m5", body := "check http://x.test/a and http://x.test/b",
    msgType := "chat", timestamp := 5, hasMedia := false, media := none,
    chat := chatG1, contact := contactAlice,
    quoted := none, author := "a1", msgFrom := "g1@g.us", isStatus := false }

/-- An event carrying an attached image of MIME type `image/jpeg`. -/
def msgImage : RawMessage :=
  { idSerialized := "m6", body := "photo", msgType := "image",
    timestamp := 5, hasMedia := true,
    media := some { hasData := true, mimetype := "image/jpeg", filename := "pic.jpg" },
    chat := chatG1, contact := contactAlice,
    quoted := none, author := "a1", msgFrom := "g1@g.us", isStatus := false }

/-- A roster oracle whose first fetch is empty and whose second fetch
returns 12 groups. -/
def fetchTwelve : Nat → List String :=
  fun attempt => if attempt ≤ 1 then [] else (List.range 12).map toString

/-- An incoming message authored by the session's own account and flagged
as a status message. -/
def ownStatusMsg : IncomingMsg :=
  { msgFrom := "g1@g.us", author := "15551234567@c.us", isStatus := true }

/-- The normalized message produced for `msgImage` at clock value 7. -/
def fmtImage : FormattedMessage :=
  { groupId := "g1", groupName := "Group One", senderName := "Alice",
    messageText := "photo", timestamp := 5000,
    imageAttachmentPath := some "IMAGES/7_pic.jpg",
    documentAttachmentPath := none, videoAttachmentPath := none,
    audioAttachmentPath := none, linkMetadata := none,
    batchAttachmentPath := none, replyToMessageId := none, replyText := none,
    replyAttachmentType := none, replyAttachmentPath := none,
    attachmentType := some "image" }

/-! ## Helper lemmas: JS string semantics -/

theorem jsOr_ne_empty {a b : String} (h : b ≠ "") : jsOr a b ≠ "" := by
  unfold jsOr
  split
  · exact h
  · assumption

theorem charsStart_iff_append : ∀ (p l : List Char), charsStart p l = true ↔ ∃ t, l = p ++ t
  | [], l => by simp [charsStart]
  | a :: as, [] => by simp [charsStart]
  | a :: as, b :: bs => by
    rw [charsStart]
    simp only [Bool.and_eq_true, decide_eq_true_eq, List.cons_append]
    constructor
    · rintro ⟨rfl, h⟩
      obtain ⟨t, rfl⟩ := (charsStart_iff_append as bs).1 h
      exact ⟨t, rfl⟩
    · rintro ⟨t, ht⟩
      injection ht with h1 h2
      exact ⟨h1.symm, (charsStart_iff_append as bs).2 ⟨t, h2⟩⟩

/-- A string starting with `video/` is nonempty. -/
theorem ne_empty_of_video_prefix {s : String} (h : strStartsWith s "video/" = true) : s ≠ "" := by
  intro hs
  subst hs
  simp [strStartsWith, charsStart] at h

/-- A string starting with `video/` does not start with `image/`. -/
theorem not_image_prefix_of_video_prefix {s : String}
    (h : strStartsWith s "video/" = true) : strStartsWith s "image/" = false := by
  unfold strStartsWith at h ⊢
  obtain ⟨t, ht⟩ := (charsStart_iff_append _ _).1 h
  rw [ht]
  have : ('i' : Char) ≠ 'v' := by decide
  simp [charsStart, this]

/-- If the trimmed string is empty, every character was whitespace. -/
theorem all_ws_of_jsTrim_eq_empty {s : String} (h : jsTrim s = "") :
    ∀ c ∈ s.data, isWs c = true := by
  intro c hc
  have hdata : jsTrimList s.data = [] := congrArg String.data h
  unfold jsTrimList at hdata
  rw [List.reverse_eq_nil_iff] at hdata
  have hdrop : ∀ x ∈ (s.data.dropWhile isWs).reverse, isWs x :=
    List.dropWhile_eq_nil_iff.1 hdata
  have hdrop' : ∀ x ∈ s.data.dropWhile isWs, isWs x := by
    intro x hx
    exact hdrop x (List.mem_reverse.2 hx)
  have hsplit := List.takeWhile_append_dropWhile (p := isWs) (l := s.data)
  rw [← hsplit] at hc
  rcases List.mem_append.1 hc with htk | hdr
  · exact List.mem_takeWhile_imp htk
  · exact hdrop' c hdr

/-- A string containing a non-whitespace character has a nonempty trim. -/
theorem jsTrim_ne_empty_of_not_ws {s : String} {c : Char} (hc : c ∈ s.data)
    (hw : isWs c = false) : jsTrim s ≠ "" := by
  intro h
  have := all_ws_of_jsTrim_eq_empty h c hc
  rw [hw] at this
  exact Bool.false_ne_true this

/-- The synthesized `VIDEOS/...` locator contains the letter V. -/
theorem mem_V_synthMediaPath (ext : String) (t : Nat) :
    'V' ∈ (synthMediaPath "VIDEOS" ext t).data := by
  unfold synthMediaPath
  simp only [String.data_append, List.mem_append]
  refine Or.inl (Or.inl (Or.inl (Or.inl (Or.inl (Or.inl ?_)))))
  decide

/-- The synthesized `VIDEOS/...` locator is nonempty. -/
theorem synthMediaPath_VIDEOS_ne_empty (ext : String) (t : Nat) :
    synthMediaPath "VIDEOS" ext t ≠ "" := by
  intro h
  have := mem_V_synthMediaPath ext t
  rw [h] at this
  simp at this

/-- The synthesized `VIDEOS/...` locator does not trim to the empty string. -/
theorem jsTrim_synthMediaPath_VIDEOS_ne_empty (ext : String) (t : Nat) :
    jsTrim (synthMediaPath "VIDEOS" ext t) ≠ "" :=
  jsTrim_ne_empty_of_not_ws (mem_V_synthMediaPath ext t) (by decide)

/-! ## Helper lemmas: fields preserved by the pipeline phases -/

theorem applyReply_groupId (d : MessageData) (q : Option QuotedMsg) (now : Nat) :
    (applyReply d q now).groupId = d.groupId := by
  cases q <;> rfl

theorem applyReply_isGroup (d : MessageData) (q : Option QuotedMsg) (now : Nat) :
    (applyReply d q now).isGroup = d.isGroup := by
  cases q <;> rfl

theorem applyReply_senderName (d : MessageData) (q : Option QuotedMsg) (now : Nat) :
    (applyReply d q now).senderName = d.senderName := by
  cases q <;> rfl

theorem applyReply_attachmentTypeField (d : MessageData) (q : Option QuotedMsg) (now : Nat)
    (h : d.attachmentTypeField = none) : (applyReply d q now).attachmentTypeField = none := by
  cases q with
  | none => exact h
  | some q => simp [applyReply, h, jsOrOpt]

theorem applyLinks_stable (d : MessageData) :
    (applyLinks d).groupId = d.groupId ∧ (applyLinks d).isGroup = d.isGroup ∧
    (applyLinks d).senderName = d.senderName ∧
    (applyLinks d).attachmentTypeField = d.attachmentTypeField ∧
    (applyLinks d).replyToMessageId = d.replyToMessageId ∧
    (applyLinks d).replyText = d.replyText ∧
    (applyLinks d).replyAttachmentType = d.replyAttachmentType ∧
    (applyLinks d).replyAttachmentPath = d.replyAttachmentPath := by
  unfold applyLinks
  rcases h : extractAndProcessLinks d.messageText with _ | ⟨el, links⟩
  · simp
  · dsimp only
    split <;> simp

theorem applyAttachment_stable (d : MessageData) (m : RawMessage) (now : Nat) :
    (applyAttachment d m now).groupId = d.groupId ∧
    (applyAttachment d m now).isGroup = d.isGroup ∧
    (applyAttachment d m now).senderName = d.senderName ∧
    (applyAttachment d m now).attachmentTypeField = d.attachmentTypeField ∧
    (applyAttachment d m now).replyToMessageId = d.replyToMessageId ∧
    (applyAttachment d m now).replyText = d.replyText ∧
    (applyAttachment d m now).replyAttachmentType = d.replyAttachmentType ∧
    (applyAttachment d m now).replyAttachmentPath = d.replyAttachmentPath := by
  unfold applyAttachment
  split
  · rcases processAttachment m now with _ | ap <;> simp
  · simp

/-! ## Helper lemmas: the assembled record -/

theorem assemble_groupId (m : RawMessage) (now : Nat) :
    (assembleMessageData m now).groupId = m.chat.idSerialized := by
  unfold assembleMessageData
  rw [(applyAttachment_stable _ _ _).1, (applyLinks_stable _).1, applyReply_groupId]
  rfl

theorem assemble_isGroup (m : RawMessage) (now : Nat) :
    (assembleMessageData m now).isGroup = m.chat.isGroup := by
  unfold assembleMessageData
  rw [(applyAttachment_stable _ _ _).2.1, (applyLinks_stable _).2.1, applyReply_isGroup]
  rfl

theorem assemble_senderName (m : RawMessage) (now : Nat) :
    (assembleMessageData m now).senderName =
      jsOr (jsOr m.contact.pushname m.contact.name) "Unknown" := by
  unfold assembleMessageData
  rw [(applyAttachment_stable _ _ _).2.2.1, (applyLinks_stable _).2.2.1, applyReply_senderName]
  rfl

theorem assemble_senderName_ne_empty (m : RawMessage) (now : Nat) :
    (assembleMessageData m now).senderName ≠ "" := by
  rw [assemble_senderName]
  exact jsOr_ne_empty (by decide)

theorem assemble_attachmentTypeField (m : RawMessage) (now : Nat) :
    (assembleMessageData m now).attachmentTypeField = none := by
  unfold assembleMessageData
  rw [(applyAttachment_stable _ _ _).2.2.2.1, (applyLinks_stable _).2.2.2.1,
    applyReply_attachmentTypeField]
  rfl

theorem validateMessage_eq_false_iff (d : MessageData) :
    validateMessage d = false ↔ ((d.isGroup = true ∧ d.groupId = "") ∨ d.senderName = "") := by
  unfold validateMessage
  split <;> rename_i h <;> simp [h]

theorem processMessage_eq_none_iff_validate (m : RawMessage) (now : Nat) :
    processMessage m now = none ↔ validateMessage (assembleMessageData m now) = false := by
  unfold processMessage
  dsimp only
  split <;> rename_i h <;> simp [h]

set_option maxRecDepth 10000

/-! ## Claim C1 -/

/-- C1 (corrected).  The ingestion pipeline is total: for any inbound
event with a nonempty chat id it produces a normalized message, and an
otherwise-empty message from a valid group is still accepted.  But the
pipeline returns `none` exactly when the event is group-scoped with an
empty group id — regardless of the sender name, because the sender-name
fallback chain ends in the constant `"Unknown"` and thus never fails. -/
theorem processMessage_null_iff_group_without_id (m : RawMessage) (now : Nat) :
    (processMessage m now = none ↔ (m.chat.isGroup = true ∧ m.chat.idSerialized = "")) ∧
    (m.chat.idSerialized ≠ "" → (processMessage m now).isSome = true) := by
  have hiff : processMessage m now = none ↔
      (m.chat.isGroup = true ∧ m.chat.idSerialized = "") := by
    rw [processMessage_eq_none_iff_validate, validateMessage_eq_false_iff,
      assemble_isGroup, assemble_groupId]
    simp [assemble_senderName_ne_empty m now]
  refine ⟨hiff, fun hid => ?_⟩
  rw [Option.isSome_iff_ne_none]
  intro hnone
  exact hid (hiff.1 hnone).2

/-- C1 witness: the empty message from a valid group is accepted. -/
theorem processMessage_null_iff_group_without_id_witness :
    (processMessage msgEmpty 0).isSome = true :=
  (processMessage_null_iff_group_without_id msgEmpty 0).2 (by decide)

/-- C1 counterexample to the claim as stated: a group-scoped event with an
empty group id but a present sender name (push name `"Alice"`) is still
rejected, so rejection does not require the sender name to be missing as
well. -/
theorem processMessage_null_with_sender_present :
    processMessage msgNoGroupId 0 = none ∧
    msgNoGroupId.chat.isGroup = true ∧ msgNoGroupId.chat.idSerialized = "" ∧
    msgNoGroupId.contact.pushname = "Alice" := by
  refine ⟨by decide, by decide, by decide, by decide⟩

/-! ## Claim C2 -/

/-- C2 (corrected).  The reconnect delay is
`min(base * growthFactor^(attempt-1), capDelay)` (with `base = 20000 ms`,
`growthFactor = 1.2`, `capDelay = 180000 ms` and no jitter term) and is
monotonically non-decreasing in the attempt count; the attempt counter,
however, can become 0 without a `READY` transition: it is also reset by a
successful `authenticated` event and by the 30-minute cooldown after the
maximum attempt count, and it decays by one on each passing active health
check (so it reaches 0 from 1). -/
theorem reconnectDelay_monotone_and_reset :
    (∀ a : Nat, reconnectDelay a = min (20000 * (6 / 5 : ℚ) ^ (a - 1) + 0) 180000) ∧
    (∀ a b : Nat, a ≤ b → reconnectDelay a ≤ reconnectDelay b) ∧
    (∀ (s : ReconnectState) (e : SessionEvent), s.reconnectAttempts ≠ 0 →
      (reconnectStep e s).reconnectAttempts = 0 →
      e = SessionEvent.ready ∨ e = SessionEvent.authenticated ∨
      e = SessionEvent.cooldownReset ∨
      (e = SessionEvent.healthCheckPass ∧ s.reconnectAttempts = 1)) := by
  refine ⟨fun a => by simp [reconnectDelay], fun a b hab => ?_, fun s e h0 hstep => ?_⟩
  · unfold reconnectDelay
    refine min_le_min ?_ le_rfl
    have h15 : (1 : ℚ) ≤ 6 / 5 := by norm_num
    have hpow := pow_le_pow_right₀ h15 (Nat.sub_le_sub_right hab 1)
    have : (0 : ℚ) ≤ 20000 := by norm_num
    exact mul_le_mul_of_nonneg_left hpow this
  · cases e with
    | ready => exact Or.inl rfl
    | authenticated => exact Or.inr (Or.inl rfl)
    | cooldownReset => exact Or.inr (Or.inr (Or.inl rfl))
    | healthCheckPass =>
      refine Or.inr (Or.inr (Or.inr ⟨rfl, ?_⟩))
      simp only [reconnectStep] at hstep
      omega
    | disconnected =>
      exfalso
      simp only [reconnectStep] at hstep
      split at hstep
      · exact h0 hstep
      · simp at hstep

/-- C2 witness: the delay is non-decreasing from attempt 2 to attempt 3. -/
theorem reconnectDelay_monotone_and_reset_witness :
    reconnectDelay 2 ≤ reconnectDelay 3 :=
  reconnectDelay_monotone_and_reset.2.1 2 3 (by norm_num)

/-- C2 counterexample to the claim as stated: the 30-minute cooldown after
the maximum attempt count resets the counter to 0 without any `READY`
transition (and a passing health check decrements 1 to 0 likewise). -/
theorem reconnect_reset_without_ready :
    (reconnectStep SessionEvent.cooldownReset ⟨7⟩).reconnectAttempts = 0 ∧
    (7 : Nat) ≠ 0 ∧ SessionEvent.cooldownReset ≠ SessionEvent.ready ∧
    (reconnectStep SessionEvent.healthCheckPass ⟨1⟩).reconnectAttempts = 0 := by
  refine ⟨by decide, by decide, by decide, by decide⟩

/-! ## Claim C3 -/

/-- C3 (confirmed).  The force-fresh-session decision of
`handleDisconnection` is true exactly when the disconnect reason is an
explicit logout/unpair, or the local session files are missing, or more
than 5 reconnection attempts have failed; otherwise the cached session is
reused. -/
theorem forceNewSession_iff (reason : String) (hasSessionFiles : Bool) (attempts : Nat) :
    forceNewSessionDecision reason hasSessionFiles attempts = true ↔
      (isExplicitLogoutReason reason = true ∨ hasSessionFiles = false ∨ 5 < attempts) := by
  unfold forceNewSessionDecision
  cases hasSessionFiles <;> simp

/-- C3 witness: six failed attempts alone force a fresh session. -/
theorem forceNewSession_iff_witness :
    forceNewSessionDecision "NAVIGATION" true 6 = true :=
  (forceNewSession_iff "NAVIGATION" true 6).mpr (Or.inr (Or.inr (by norm_num)))

/-! ## Claim C5 -/

/-- C5 (confirmed).  For the event with text
`check http://x.test/a and http://x.test/b`, no media, valid group and
sender, the output accumulates both URLs in order in `linkRefs`
(`linkMetadata`), strips the first URL from the display text, and derives
the unified attachment kind `link`. -/
theorem link_scenario_output :
    (processMessage msgLinkScenario 0).map
      (fun f => (f.linkMetadata, f.messageText, f.attachmentType)) =
    some (some ["http://x.test/a", "http://x.test/b"],
      "check  and http://x.test/b", some "link") := by
  decide

/-! ## Claim C7 -/

/-- C7 (confirmed).  The connection is declared stale exactly when both
active probe kinds fail; the stale reconnect delay is non-decreasing in
the number of stale episodes in the rolling window; and three consecutive
stale episodes within 5 minutes (here at 0 s, 60 s and 120 s) drive the
counter to 3, whose delay strictly exceeds the delay of a single isolated
episode. -/
theorem stale_escalation :
    (∀ p1 p2 : Bool, activeProbesExhausted p1 p2 = true ↔ (p1 = false ∧ p2 = false)) ∧
    (∀ a b : Nat, a ≤ b → staleReconnectDelay a ≤ staleReconnectDelay b) ∧
    ((recordStaleEpisode (recordStaleEpisode (recordStaleEpisode ⟨0, none⟩ 0) 60000)
        120000).staleConnectionCount = 3) ∧
    staleReconnectDelay 3 > staleReconnectDelay 1 := by
  refine ⟨fun p1 p2 => ?_, fun a b hab => ?_, by decide, ?_⟩
  · cases p1 <;> cases p2 <;> simp [activeProbesExhausted]
  · unfold staleReconnectDelay
    refine min_le_min ?_ le_rfl
    exact mul_le_mul_of_nonneg_left
      (pow_le_pow_right₀ (by norm_num) (Nat.sub_le_sub_right hab 1)) (by norm_num)
  · unfold staleReconnectDelay
    norm_num [min_def]

/-- C7 witness: the delay is non-decreasing from one stale episode to two. -/
theorem stale_escalation_witness :
    staleReconnectDelay 1 ≤ staleReconnectDelay 2 :=
  stale_escalation.2.1 1 2 (by norm_num)

/-! ## Claim C8 -/

/-- C8 (corrected).  The timer cancellation that `shutdown` performs
before attempting adapter teardown clears the health-monitor timer and
the roster-recheck timer, but it deliberately leaves the lock-refresh
timer running (the source keeps it alive until process exit so that no
other instance takes over the session lock). -/
theorem shutdown_timer_cancellation (t : TimerState) :
    (shutdownCancelTimers t).connectionMonitor = false ∧
    (shutdownCancelTimers t).groupRefreshInterval = false ∧
    (shutdownCancelTimers t).lockRefreshInterval = t.lockRefreshInterval :=
  ⟨rfl, rfl, rfl⟩

/-- C8 counterexample to the claim as stated: starting from all three
timers pending, the lock-refresh timer is still pending after shutdown's
timer cancellation. -/
theorem shutdown_keeps_lock_refresh :
    (shutdownCancelTimers ⟨true, true, true⟩).lockRefreshInterval = true := by
  decide

/-! ## Claim C9 -/

/-- C9 (confirmed).  If the first roster fetch returns zero groups, the
synchronizer retries (bounded at 5 attempts), so a second fetch returning
12 groups makes the final known group set have size 12, not 0; and the
connection monitor installs the periodic low-frequency group recheck. -/
theorem roster_retry_recovers (fetch : Nat → List String)
    (h1 : fetch 1 = []) (h2 : (fetch 2).length = 12) :
    (initializeGroups fetch).length = 12 ∧
    (∀ t : TimerState, (startConnectionMonitoring t).groupRefreshInterval = true) := by
  constructor
  · have step1 : initializeGroups fetch = initializeGroupsAux fetch 4 2 := by
      rw [show initializeGroups fetch =
        (if (fetch 1).length = 0 ∧ 1 < 5 then initializeGroupsAux fetch 4 (1 + 1)
         else fetch 1) from rfl]
      simp [h1]
    have step2 : initializeGroupsAux fetch 4 2 = fetch 2 := by
      rw [show initializeGroupsAux fetch 4 2 =
        (if (fetch 2).length = 0 ∧ 2 < 5 then initializeGroupsAux fetch 3 (2 + 1)
         else fetch 2) from rfl]
      simp [h2]
    rw [step1, step2, h2]
  · intro t
    rfl

/-- C9 witness: the oracle whose first fetch is empty and whose second
fetch has 12 groups ends with 12 known groups. -/
theorem roster_retry_recovers_witness :
    (initializeGroups fetchTwelve).length = 12 :=
  (roster_retry_recovers fetchTwelve (by decide) (by decide)).1

/-! ## Claim C10 -/

/-- C10 (confirmed).  The own-account identity starts out unrecorded
(`null` until the ready event), and while it is unrecorded
`isBusinessMessage` returns false for every message — regardless of its
author or status flag — so the identity gate reduces to the group-chat
check alone and such messages are processed rather than dropped. -/
theorem business_filter_unset_passes :
    initialBusinessPhoneNumber = none ∧
    (∀ m : IncomingMsg, isBusinessMessage none m = false) ∧
    (∀ m : IncomingMsg, shouldProcessIncoming none m = strContains m.msgFrom "@g.us") := by
  refine ⟨rfl, fun m => ?_, fun m => ?_⟩
  · unfold isBusinessMessage
    simp [optTruthy]
  · unfold shouldProcessIncoming isBusinessMessage
    simp [optTruthy]

/-! ## Claim C6 -/

theorem replyFixups_stable (d : MessageData) (now : Nat) :
    (replyFixups d now).imageAttachmentPath = d.imageAttachmentPath ∧
    (replyFixups d now).documentAttachmentPath = d.documentAttachmentPath ∧
    (replyFixups d now).videoAttachmentPath = d.videoAttachmentPath ∧
    (replyFixups d now).audioAttachmentPath = d.audioAttachmentPath ∧
    (replyFixups d now).linkMetadata = d.linkMetadata ∧
    (replyFixups d now).batchAttachmentPath = d.batchAttachmentPath ∧
    (replyFixups d now).attachmentTypeField = d.attachmentTypeField := by
  unfold replyFixups
  dsimp only
  repeat' split
  all_goals simp

theorem optTruthy_normalize (o : Option String) :
    optTruthy (if optTruthy o then o else none) = optTruthy o := by
  split <;> simp_all [optTruthy]

theorem formatMessageData_attachmentType (d : MessageData) (now : Nat)
    (h : d.attachmentTypeField = none) :
    (formatMessageData d now).attachmentType =
      unifiedAttachmentType (formatMessageData d now).imageAttachmentPath
        (formatMessageData d now).documentAttachmentPath
        (formatMessageData d now).videoAttachmentPath
        (formatMessageData d now).audioAttachmentPath
        (formatMessageData d now).linkMetadata
        (formatMessageData d now).batchAttachmentPath := by
  obtain ⟨hi, hd, hv, ha, hl, hb, hf⟩ := replyFixups_stable d now
  have e1 : (formatMessageData d now).attachmentType =
      jsOrOpt (replyFixups d now).attachmentTypeField
        (unifiedAttachmentType (replyFixups d now).imageAttachmentPath
          (replyFixups d now).documentAttachmentPath
          (replyFixups d now).videoAttachmentPath
          (replyFixups d now).audioAttachmentPath
          (replyFixups d now).linkMetadata
          (replyFixups d now).batchAttachmentPath) := rfl
  have e2 : (formatMessageData d now).imageAttachmentPath =
      (if optTruthy (replyFixups d now).imageAttachmentPath
        then (replyFixups d now).imageAttachmentPath else none) := rfl
  have e3 : (formatMessageData d now).documentAttachmentPath =
      (if optTruthy (replyFixups d now).documentAttachmentPath
        then (replyFixups d now).documentAttachmentPath else none) := rfl
  have e4 : (formatMessageData d now).videoAttachmentPath =
      (if optTruthy (replyFixups d now).videoAttachmentPath
        then (replyFixups d now).videoAttachmentPath else none) := rfl
  have e5 : (formatMessageData d now).audioAttachmentPath =
      (if optTruthy (replyFixups d now).audioAttachmentPath
        then (replyFixups d now).audioAttachmentPath else none) := rfl
  have e6 : (formatMessageData d now).linkMetadata = (replyFixups d now).linkMetadata := rfl
  have e7 : (formatMessageData d now).batchAttachmentPath =
      (if optTruthy (replyFixups d now).batchAttachmentPath
        then (replyFixups d now).batchAttachmentPath else none) := rfl
  rw [e1, e2, e3, e4, e5, e6, e7, hf, h]
  unfold jsOrOpt unifiedAttachmentType
  rw [optTruthy_normalize, optTruthy_normalize, optTruthy_normalize, optTruthy_normalize,
    optTruthy_normalize]

/-- C6 (confirmed).  Every normalized message the pipeline produces has
its single unified attachment-kind field derived by the fixed priority
image > video > audio > document > link > batch over its own per-kind
locator fields; in particular an attached `image/jpeg` yields kind
`image`, locator slot `IMAGES/...`, and unified kind `image`. -/
theorem unified_kind_priority :
    (∀ (m : RawMessage) (now : Nat) (f : FormattedMessage), processMessage m now = some f →
      f.attachmentType = unifiedAttachmentType f.imageAttachmentPath f.documentAttachmentPath
        f.videoAttachmentPath f.audioAttachmentPath f.linkMetadata f.batchAttachmentPath) ∧
    processMessage msgImage 7 = some fmtImage ∧
    fmtImage.imageAttachmentPath = some "IMAGES/7_pic.jpg" ∧
    fmtImage.attachmentType = some "image" := by
  refine ⟨fun m now f hf => ?_, by decide, by decide, by decide⟩
  unfold processMessage at hf
  dsimp only at hf
  split at hf
  · injection hf with hf
    rw [← hf]
    exact formatMessageData_attachmentType _ now (assemble_attachmentTypeField m now)
  · exact Option.noConfusion hf

/-- C6 witness: the priority equation instantiated at the image event. -/
theorem unified_kind_priority_witness :
    fmtImage.attachmentType = unifiedAttachmentType fmtImage.imageAttachmentPath
      fmtImage.documentAttachmentPath fmtImage.videoAttachmentPath
      fmtImage.audioAttachmentPath fmtImage.linkMetadata fmtImage.batchAttachmentPath :=
  unified_kind_priority.1 msgImage 7 fmtImage (by decide)

/-! ## Claim C4 -/

theorem extractReplyData_video (q : QuotedMsg) (md : MediaData) (now : Nat)
    (hm : q.hasMedia = true) (hmd : q.media = some md)
    (hv : strStartsWith md.mimetype "video/" = true) (hb : q.body = "") :
    extractReplyData q now =
      { messageId := q.idSerialized, messageText := q.body,
        attachmentType := some "video",
        attachmentPath := some (synthMediaPath "VIDEOS" "mp4" (jsMillis q.timestamp now)),
        replyText := synthMediaPath "VIDEOS" "mp4" (jsMillis q.timestamp now) } := by
  have hne : md.mimetype ≠ "" := ne_empty_of_video_prefix hv
  have hni : strStartsWith md.mimetype "image/" = false := not_image_prefix_of_video_prefix hv
  unfold extractReplyData
  simp [hm, hmd, hb, hne, hni, hv]

theorem computeReplyFields_video (q : QuotedMsg) (md : MediaData) (now : Nat)
    (hm : q.hasMedia = true) (hmd : q.media = some md)
    (hv : strStartsWith md.mimetype "video/" = true) (hb : q.body = "") :
    computeReplyFields q now =
      { replyToMessageId := q.idSerialized,
        replyText := synthMediaPath "VIDEOS" "mp4" (jsMillis q.timestamp now),
        replyAttachmentType := some "video",
        replyAttachmentPath := some (synthMediaPath "VIDEOS" "mp4" (jsMillis q.timestamp now)) } := by
  have hP := synthMediaPath_VIDEOS_ne_empty "mp4" (jsMillis q.timestamp now)
  have hPt := jsTrim_synthMediaPath_VIDEOS_ne_empty "mp4" (jsMillis q.timestamp now)
  unfold computeReplyFields
  rw [extractReplyData_video q md now hm hmd hv hb]
  simp [jsOr, optTruthy, hP, hPt, hb, hm]

theorem applyReply_some_reply (d : MessageData) (q : QuotedMsg) (now : Nat) :
    (applyReply d (some q) now).replyText = (computeReplyFields q now).replyText ∧
    (applyReply d (some q) now).replyAttachmentType =
      (computeReplyFields q now).replyAttachmentType ∧
    (applyReply d (some q) now).replyAttachmentPath =
      (computeReplyFields q now).replyAttachmentPath :=
  ⟨rfl, rfl, rfl⟩

theorem assemble_video_reply (m : RawMessage) (q : QuotedMsg) (md : MediaData) (now : Nat)
    (hq : m.quoted = some q) (hm : q.hasMedia = true) (hmd : q.media = some md)
    (hv : strStartsWith md.mimetype "video/" = true) (hb : q.body = "") :
    (assembleMessageData m now).replyText =
      synthMediaPath "VIDEOS" "mp4" (jsMillis q.timestamp now) ∧
    (assembleMessageData m now).replyAttachmentType = some "video" ∧
    (assembleMessageData m now).replyAttachmentPath =
      some (synthMediaPath "VIDEOS" "mp4" (jsMillis q.timestamp now)) := by
  have hc := computeReplyFields_video q md now hm hmd hv hb
  unfold assembleMessageData
  rw [hq]
  refine ⟨?_, ?_, ?_⟩
  · rw [(applyAttachment_stable _ _ _).2.2.2.2.2.1, (applyLinks_stable _).2.2.2.2.2.1,
      (applyReply_some_reply _ _ _).1, hc]
  · rw [(applyAttachment_stable _ _ _).2.2.2.2.2.2.1, (applyLinks_stable _).2.2.2.2.2.2.1,
      (applyReply_some_reply _ _ _).2.1, hc]
  · rw [(applyAttachment_stable _ _ _).2.2.2.2.2.2.2, (applyLinks_stable _).2.2.2.2.2.2.2,
      (applyReply_some_reply _ _ _).2.2, hc]

theorem replyFixups_of_video_reply (d : MessageData) (now : Nat) (P : String)
    (ht : d.replyAttachmentType = some "video") (hp : d.replyAttachmentPath = some P)
    (hr : d.replyText = P) (hP : P ≠ "") (hPt : jsTrim P ≠ "") :
    replyFixups d now = d := by
  unfold replyFixups
  simp [ht, hp, hr, hP, hPt, optTruthy]

/-- C4 (confirmed).  An event quoting a prior video message (video MIME
type, media present) whose quoted text is empty, arriving from a valid
group, produces a normalized message whose reply kind is `video` and
whose reply text equals the deterministically synthesized video locator
`VIDEOS/{t}_attachment_{t}.mp4` built from the quoted message's own
timestamp — which is also the reply's attachment locator. -/
theorem video_reply_locator (m : RawMessage) (q : QuotedMsg) (md : MediaData) (now : Nat)
    (hq : m.quoted = some q) (hm : q.hasMedia = true) (hmd : q.media = some md)
    (hv : strStartsWith md.mimetype "video/" = true) (hb : q.body = "")
    (hg : m.chat.idSerialized ≠ "") :
    ∃ f, processMessage m now = some f ∧
      f.replyAttachmentType = some "video" ∧
      f.replyText = some (synthMediaPath "VIDEOS" "mp4" (jsMillis q.timestamp now)) ∧
      f.replyAttachmentPath = f.replyText := by
  obtain ⟨hrt, hrty, hrp⟩ := assemble_video_reply m q md now hq hm hmd hv hb
  have hP := synthMediaPath_VIDEOS_ne_empty "mp4" (jsMillis q.timestamp now)
  have hPt := jsTrim_synthMediaPath_VIDEOS_ne_empty "mp4" (jsMillis q.timestamp now)
  have hval : validateMessage (assembleMessageData m now) = true := by
    cases hvv : validateMessage (assembleMessageData m now)
    · exfalso
      rcases (validateMessage_eq_false_iff _).1 hvv with ⟨_, hgid⟩ | hsn
      · rw [assemble_groupId] at hgid
        exact hg hgid
      · exact assemble_senderName_ne_empty m now hsn
    · rfl
  have hpm : processMessage m now = some (formatMessageData (assembleMessageData m now) now) := by
    unfold processMessage
    dsimp only
    rw [hval]
    simp
  have hfix : replyFixups (assembleMessageData m now) now = assembleMessageData m now :=
    replyFixups_of_video_reply _ now _ hrty hrp hrt hP hPt
  refine ⟨_, hpm, ?_, ?_, ?_⟩
  · have o : (formatMessageData (assembleMessageData m now) now).replyAttachmentType =
        (if optTruthy (replyFixups (assembleMessageData m now) now).replyAttachmentType
          then (replyFixups (assembleMessageData m now) now).replyAttachmentType else none) := rfl
    rw [o, hfix, hrty]
    simp [optTruthy]
  · have o : (formatMessageData (assembleMessageData m now) now).replyText =
        optOfStr (replyFixups (assembleMessageData m now) now).replyText := rfl
    rw [o, hfix, hrt]
    simp [optOfStr, hP]
  · have o1 : (formatMessageData (assembleMessageData m now) now).replyAttachmentPath =
        (if optTruthy (replyFixups (assembleMessageData m now) now).replyAttachmentPath
          then (replyFixups (assembleMessageData m now) now).replyAttachmentPath else none) := rfl
    have o2 : (formatMessageData (assembleMessageData m now) now).replyText =
        optOfStr (replyFixups (assembleMessageData m now) now).replyText := rfl
    rw [o1, o2, hfix, hrt, hrp]
    simp [optOfStr, optTruthy, hP]

/-- C4 witness: the concrete reply-to-video event. -/
theorem video_reply_locator_witness :
    ∃ f, processMessage msgReplyVideo 0 = some f ∧
      f.replyAttachmentType = some "video" ∧
      f.replyText = some (synthMediaPath "VIDEOS" "mp4" (jsMillis quotedVideo.timestamp 0)) ∧
      f.replyAttachmentPath = f.replyText :=
  video_reply_locator msgReplyVideo quotedVideo
    { hasData := true, mimetype := "video/mp4", filename := "" } 0
    (by decide) (by decide) (by decide) (by decide) (by decide) (by decide)

end WhatsAppCore
